import Mathlib

/-!
Verification of the BrownClaw combined-timeline logic.

The definitions below are a shallow embedding of the timeline
reconciliation code found in `test_combined_timeline.py`
(function `simulate_get_combined_timeline`) and
`test_realtime_integration.py` (function `test_realtime_parsing`):

* calendar dates are represented as day ordinals (proleptic Gregorian,
  epoch 1970-01-01), so that subtracting two dates yields exactly the
  `(a - b).days` value computed by Python `datetime` subtraction, and
  `civil y m d` converts a `YYYY-MM-DD` date to its ordinal;
* upstream numeric values are represented as exact rationals;
* Python `round(x, n)` is modelled as round-half-to-even at `n`
  decimal digits on rationals;
* `None` values become `Option.none`, per-source fetch failure becomes
  `Except.error`.
-/

namespace Brownclaw

/-- Calendar date, as a day ordinal (days since 1970-01-01). -/
abbrev Date := Int

/-- Day ordinal of the proleptic Gregorian date `y-m-d` (days since
1970-01-01, valid for `y ≥ 1`).  This mirrors the date arithmetic that
Python `datetime.strptime` / `timedelta` perform on the `YYYY-MM-DD`
strings in the scripts. -/
def civil (y m d : Nat) : Date :=
  let yadj : Nat := if m ≤ 2 then y - 1 else y
  let era : Nat := yadj / 400
  let yoe : Nat := yadj - era * 400
  let mp : Nat := (m + 9) % 12
  let doy : Nat := (153 * mp + 2) / 5 + d - 1
  let doe : Nat := yoe * 365 + yoe / 4 - yoe / 100 + doy
  ((era * 146097 + doe : Nat) : Int) - 719468

/-- Tag recorded in the `source` field of every emitted record. -/
inductive Source where
  | historical
  | realtime
deriving DecidableEq

/-- One entry of the combined timeline, as built at lines 36-42
(historical) and 84-91 (real-time) of `test_combined_timeline.py`.
`sampleCount` models the `measurementCount` key, present only on
real-time records. -/
structure DailyRecord where
  date : Date
  discharge : Option ℚ
  level : Option ℚ
  source : Source
  sampleCount : Option Nat
deriving DecidableEq

/-- One feature of the real-time upstream response: the date part of its
`DATETIME` (already split at `T`; `none` when the `DATETIME` field is
missing) and the optional `DISCHARGE` and `LEVEL` values. -/
structure RTFeature where
  datetime : Option Date
  discharge : Option ℚ
  level : Option ℚ
deriving DecidableEq

/-- One grouped measurement of a day, as stored in `daily_data[date]`:
the optional discharge and the optional level of one raw sample. -/
abbrev Measurement := Option ℚ × Option ℚ

/-- Daily record produced by the real-time aggregator (the dict appended
to `results realtime` at lines 84-91 of `test_combined_timeline.py`). -/
structure RTDaily where
  date : Date
  discharge : Option ℚ
  level : Option ℚ
  sampleCount : Nat
deriving DecidableEq

/-- One feature of the historical upstream response; every field comes
from `props.get`, hence every field may be absent. -/
structure HistFeature where
  date : Option Date
  discharge : Option ℚ
  level : Option ℚ
deriving DecidableEq

/-- The record appended for a historical feature at lines 36-42 of
`test_combined_timeline.py`: the optional fields are copied verbatim,
the source tag is constant. -/
structure HistRecordRaw where
  date : Option Date
  discharge : Option ℚ
  level : Option ℚ
  source : Source
deriving DecidableEq

/-- The `results gap` dictionary: `empty` is the untouched initial `{}`
(reached when either sequence is empty), `noGap` is
`{exists: False}`, and `someGap` carries the `startDate`, `endDate`
and `days` entries of the positive case (the constant human-readable
`description` string is omitted). -/
inductive GapInfo where
  | empty
  | noGap
  | someGap (startDate endDate : Date) (days : Int)
deriving DecidableEq

/-- Upstream fetch failure (network error, timeout, non-200 status). -/
structure FetchError where
  code : Nat
deriving DecidableEq

/-- The `historicalData` entry of the availability summary. -/
structure HistAvail where
  available : Bool
  endDate : String
  description : String
deriving DecidableEq

/-- The `realtimeData` entry of the availability summary. -/
structure RTAvail where
  available : Bool
  description : String
deriving DecidableEq

/-- The `currentYearGap` entry of the availability summary. -/
structure GapAvail where
  hasGap : Bool
  description : String
deriving DecidableEq

/-- The availability summary returned by the combined-timeline
operation. -/
structure Availability where
  historicalData : HistAvail
  realtimeData : RTAvail
  currentYearGap : GapAvail
deriving DecidableEq

/-- The availability summary is assigned unconditionally at lines
130-144 of `test_combined_timeline.py`: it is this fixed value, with
both sources marked available, no matter what the fetches returned. -/
def staticAvailability : Availability :=
  { historicalData :=
      { available := true
        endDate := "2024-12-31"
        description := "Complete historical daily mean data" }
    realtimeData :=
      { available := true
        description := "Last 30 days of 5-minute interval data" }
    currentYearGap :=
      { hasGap := true
        description := "Government daily-mean API has processing lag" } }

/-- The `results` dictionary returned by
`simulate_get_combined_timeline`. -/
structure Results where
  historical : List DailyRecord
  realtime : List RTDaily
  gap : GapInfo
  combined : List DailyRecord
  availability : Availability
deriving DecidableEq

/-- Round-half-to-even to the nearest integer, the rounding mode of
Python `round`. -/
def rnd (q : ℚ) : Int :=
  let f : Int := ⌊q⌋
  let r : ℚ := q - f
  if r < 1/2 then f
  else if 1/2 < r then f + 1
  else if f % 2 = 0 then f else f + 1

/-- Python `round(x, 2)` on rationals. -/
def round2 (q : ℚ) : ℚ := rnd (q * 100) / 100

/-- Python `round(x, 3)` on rationals. -/
def round3 (q : ℚ) : ℚ := rnd (q * 1000) / 1000

/-- The `sum(vals) / len(vals) if vals else None` pattern of lines 80-81
of `test_combined_timeline.py`. -/
def avgOpt (l : List ℚ) : Option ℚ :=
  if l = [] then none else some (l.sum / l.length)

/-- The non-null discharge values of a list of day measurements
(line 77 of `test_combined_timeline.py`). -/
def dischargeVals (ms : List Measurement) : List ℚ :=
  ms.filterMap Prod.fst

/-- The non-null level values of a list of day measurements
(line 78 of `test_combined_timeline.py`). -/
def levelVals (ms : List Measurement) : List ℚ :=
  ms.filterMap Prod.snd

/-- The (discharge, level) pair of every feature of a list, in order:
what the grouping loop stores for a run of features sharing one date. -/
def msOf (fs : List RTFeature) : List Measurement :=
  fs.map (fun f => (f.discharge, f.level))

/-- The body of the per-day loop at lines 75-91 of
`test_combined_timeline.py`: emit a record when at least one of the two
averages is present (`is not None`); each emitted field holds the
rounded average when the unrounded average is truthy (non-`None` and
nonzero) and `None` otherwise; `sampleCount` is the number of raw
samples of the day including those whose values are all null. -/
def mkDailyRT (d : Date) (ms : List Measurement) : Option RTDaily :=
  let ad := avgOpt (dischargeVals ms)
  let al := avgOpt (levelVals ms)
  if ad = none ∧ al = none then none
  else some
    { date := d
      discharge := ad.bind (fun a => if a = 0 then none else some (round2 a))
      level := al.bind (fun a => if a = 0 then none else some (round3 a))
      sampleCount := ms.length }

/-- The measurements grouped under date `d` by the loop at lines 61-72
of `test_combined_timeline.py`: the (discharge, level) pairs of the
features whose `DATETIME` has date part `d`, in input order; features
with a missing `DATETIME` are skipped. -/
def measurementsOn (fs : List RTFeature) (d : Date) : List Measurement :=
  fs.filterMap (fun f => if f.datetime = some d then some (f.discharge, f.level) else none)

/-- Insert `x` into `l` after every element whose key is less than or
equal to the key of `x` (the insertion step of a stable sort). -/
def insertLe {α : Type} (key : α → Int) (x : α) : List α → List α
  | [] => [x]
  | h :: t => if key h ≤ key x then h :: insertLe key x t else x :: h :: t

/-- Stable sort by an integer key, modelling the stable Python
`list.sort(key=...)`. -/
def sortByKey {α : Type} (key : α → Int) (l : List α) : List α :=
  l.foldl (fun acc x => insertLe key x acc) []

/-- The real-time aggregation of lines 59-91 of
`test_combined_timeline.py`: group the features by the date part of
their timestamp, then walk the distinct dates in ascending order and
emit one daily record per date that passes the `mkDailyRT` guard. -/
def aggregate (fs : List RTFeature) : List RTDaily :=
  (sortByKey id (fs.filterMap RTFeature.datetime).dedup).filterMap
    (fun d => mkDailyRT d (measurementsOn fs d))

/-- The historical parsing loop at lines 34-42 of
`test_combined_timeline.py`: every feature is turned into a record,
with no per-unit validation and no skipping. -/
def parseHistorical (fs : List HistFeature) : List HistRecordRaw :=
  fs.map (fun f =>
    { date := f.date, discharge := f.discharge, level := f.level, source := .historical })

/-- The merge step at lines 99-103 of `test_combined_timeline.py`:
concatenate the two record lists and stably sort by date. -/
def mergeTimeline (hist rt : List DailyRecord) : List DailyRecord :=
  sortByKey DailyRecord.date (hist ++ rt)

/-- The gap computation at lines 107-127 of `test_combined_timeline.py`:
only when both lists are non-empty, take the date of the last historical
record and of the first real-time record, set
`gapDays = firstRealtime - lastHistorical - 1`, and report a positive
gap or `{exists: False}`; otherwise the gap dictionary stays `{}`. -/
def computeGap (hist : List DailyRecord) (rt : List RTDaily) : GapInfo :=
  match hist.getLast?, rt.head? with
  | some lastH, some firstR =>
    let gapDays : Int := firstR.date - lastH.date - 1
    if 0 < gapDays then .someGap (lastH.date + 1) (firstR.date - 1) gapDays
    else .noGap
  | _, _ => .empty

/-- The `try`-`except` around each fetch (lines 28-47 and 53-96 of
`test_combined_timeline.py`): a failed fetch leaves the corresponding
result list empty and execution continues. -/
def recover {α : Type} (o : Except FetchError (List α)) : List α :=
  match o with
  | .ok l => l
  | .error _ => []

/-- View an aggregated real-time daily record as a combined-timeline
record (the real-time dicts carry `source: realtime` and a
`measurementCount`). -/
def rtToDaily (r : RTDaily) : DailyRecord :=
  { date := r.date
    discharge := r.discharge
    level := r.level
    source := .realtime
    sampleCount := some r.sampleCount }

/-- Boolean test that a record is tagged as real-time sourced. -/
def sourceIsRealtime (r : DailyRecord) : Bool :=
  match r.source with
  | .realtime => true
  | .historical => false

/-- The whole of `simulate_get_combined_timeline`, parametrised by the
outcome of the two fetches (the historical outcome carries records
already parsed from well-formed features; `parseHistorical` models the
raw parsing separately).  A fetch failure is recovered into an empty
list, the real-time features are aggregated into daily records, the two
series are merged, the gap is computed from the last historical and
first real-time dates, and the availability summary is the fixed
`staticAvailability` value. -/
def simulateGetCombinedTimeline
    (histOutcome : Except FetchError (List DailyRecord))
    (rtOutcome : Except FetchError (List RTFeature)) : Results :=
  let historical := recover histOutcome
  let realtime := aggregate (recover rtOutcome)
  { historical := historical
    realtime := realtime
    gap := computeGap historical realtime
    combined := mergeTimeline historical (realtime.map rtToDaily)
    availability := staticAvailability }

/-! Helper lemmas about the stable insertion sort. -/

theorem insertLe_perm {α : Type} (key : α → Int) (x : α) (l : List α) :
    List.Perm (insertLe key x l) (x :: l) := by
  induction l with
  | nil => simp [insertLe]
  | cons h t ih =>
    simp only [insertLe]
    by_cases hk : key h ≤ key x
    · rw [if_pos hk]
      exact (ih.cons h).trans (List.Perm.swap x h t)
    · rw [if_neg hk]

theorem foldl_insertLe_perm {α : Type} (key : α → Int) :
    ∀ (l acc : List α), List.Perm (l.foldl (fun acc x => insertLe key x acc) acc) (acc ++ l) := by
  intro l
  induction l with
  | nil => intro acc; simp
  | cons x t ih =>
    intro acc
    have h1 : (x :: t).foldl (fun acc x => insertLe key x acc) acc
        = t.foldl (fun acc x => insertLe key x acc) (insertLe key x acc) := by
      simp [List.foldl_cons]
    have h2 : List.Perm (t.foldl (fun acc x => insertLe key x acc) (insertLe key x acc))
        (insertLe key x acc ++ t) := ih (insertLe key x acc)
    have h3 : List.Perm (insertLe key x acc ++ t) ((x :: acc) ++ t) :=
      (insertLe_perm key x acc).append_right t
    have h4 : List.Perm ((x :: acc) ++ t) (acc ++ x :: t) := List.perm_middle.symm
    rw [h1]
    exact (h2.trans h3).trans h4

theorem sortByKey_perm {α : Type} (key : α → Int) (l : List α) :
    List.Perm (sortByKey key l) l := by
  simpa [sortByKey] using foldl_insertLe_perm key l []

theorem insertLe_pairwise {α : Type} (key : α → Int) (x : α) {l : List α}
    (h : l.Pairwise (fun a b => key a ≤ key b)) :
    (insertLe key x l).Pairwise (fun a b => key a ≤ key b) := by
  induction l with
  | nil => simp [insertLe]
  | cons hd t ih =>
    rcases List.pairwise_cons.1 h with ⟨hhd, ht⟩
    simp only [insertLe]
    by_cases hk : key hd ≤ key x
    · rw [if_pos hk]
      refine List.pairwise_cons.2 ⟨?_, ih ht⟩
      intro y hy
      have hy2 : y = x ∨ y ∈ t := by
        simpa using (insertLe_perm key x t).mem_iff.1 hy
      rcases hy2 with rfl | hyt
      · exact hk
      · exact hhd y hyt
    · rw [if_neg hk]
      push_neg at hk
      refine List.pairwise_cons.2 ⟨?_, h⟩
      intro y hy
      rcases List.mem_cons.1 hy with rfl | hyt
      · exact le_of_lt hk
      · exact le_trans (le_of_lt hk) (hhd y hyt)

theorem foldl_insertLe_pairwise {α : Type} (key : α → Int) :
    ∀ (l acc : List α), acc.Pairwise (fun a b => key a ≤ key b) →
      (l.foldl (fun acc x => insertLe key x acc) acc).Pairwise (fun a b => key a ≤ key b) := by
  intro l
  induction l with
  | nil => intro acc h; simpa using h
  | cons x t ih =>
    intro acc h
    simp only [List.foldl_cons]
    exact ih _ (insertLe_pairwise key x h)

theorem sortByKey_pairwise {α : Type} (key : α → Int) (l : List α) :
    (sortByKey key l).Pairwise (fun a b => key a ≤ key b) :=
  foldl_insertLe_pairwise key l [] (List.Pairwise.nil)

/-- Claim C3 (amended): the merged output is always sorted by date in
non-decreasing order, and when the dates of all input records (across
both sequences) are pairwise distinct, its dates are strictly
increasing.  The original claim, which asserted strict increase for
arbitrary inputs, fails when the two sources share a date: no
deduplication is performed. -/
theorem claim3_amended_thm (hist rt : List Brownclaw.DailyRecord) :
    ((Brownclaw.mergeTimeline hist rt).map Brownclaw.DailyRecord.date).Pairwise (· ≤ ·)
    ∧ (((hist ++ rt).map Brownclaw.DailyRecord.date).Nodup →
        ((Brownclaw.mergeTimeline hist rt).map Brownclaw.DailyRecord.date).Pairwise (· < ·)) := by
  have hle : ((Brownclaw.mergeTimeline hist rt).map Brownclaw.DailyRecord.date).Pairwise (· ≤ ·) := by
    rw [List.pairwise_map]
    exact sortByKey_pairwise _ _
  refine ⟨hle, ?_⟩
  intro hnd
  have hperm : List.Perm
      ((Brownclaw.mergeTimeline hist rt).map Brownclaw.DailyRecord.date)
      ((hist ++ rt).map Brownclaw.DailyRecord.date) :=
    (sortByKey_perm _ _).map _
  have hnd2 : ((Brownclaw.mergeTimeline hist rt).map Brownclaw.DailyRecord.date).Nodup :=
    hperm.nodup_iff.2 hnd
  exact (hle.and hnd2).imp (fun hab => lt_of_le_of_ne hab.1 hab.2)

/-- Witness for C3: on concrete disjoint-date inputs the merged dates
are strictly increasing. -/
theorem claim3_witness :
    ((Brownclaw.mergeTimeline
        [⟨2, some 1, none, .historical, none⟩]
        [⟨1, some 2, none, .realtime, some 4⟩]).map Brownclaw.DailyRecord.date).Pairwise (· < ·) :=
  (claim3_amended_thm
    [⟨2, some 1, none, .historical, none⟩]
    [⟨1, some 2, none, .realtime, some 4⟩]).2 (by decide)

/-- Counterexample for C3 as stated: when both sources carry the same
date, the merged output keeps both records, so its dates are neither
strictly increasing nor unique. -/
theorem claim3_counterexample :
    Brownclaw.mergeTimeline
        [⟨5, some 1, none, .historical, none⟩]
        [⟨5, some 2, none, .realtime, some 3⟩]
      = [⟨5, some 1, none, .historical, none⟩, ⟨5, some 2, none, .realtime, some 3⟩]
    ∧ ¬ ((Brownclaw.mergeTimeline
        [⟨5, some 1, none, .historical, none⟩]
        [⟨5, some 2, none, .realtime, some 3⟩]).map Brownclaw.DailyRecord.date).Pairwise (· < ·)
    ∧ ¬ ((Brownclaw.mergeTimeline
        [⟨5, some 1, none, .historical, none⟩]
        [⟨5, some 2, none, .realtime, some 3⟩]).map Brownclaw.DailyRecord.date).Nodup := by
  refine ⟨by decide, by decide, by decide⟩

/-- Claim C9 (amended): when both sources contain a record for the same
date, the merged series keeps both of them; in general the number of
merged records carrying any given date is the sum of the counts from
the two inputs, so neither source wins. -/
theorem claim9_amended_thm (hist rt : List Brownclaw.DailyRecord) (d : Brownclaw.Date) :
    (Brownclaw.mergeTimeline hist rt).countP (fun r => decide (r.date = d))
      = hist.countP (fun r => decide (r.date = d))
        + rt.countP (fun r => decide (r.date = d)) := by
  have hperm : List.Perm (Brownclaw.mergeTimeline hist rt) (hist ++ rt) :=
    sortByKey_perm _ _
  rw [hperm.countP_eq, List.countP_append]

/-- Counterexample for C9 as stated: with one record of date 7 in each
source, the merged series contains two records for that date, the
historical one first, rather than a single record from the later
source. -/
theorem claim9_counterexample :
    Brownclaw.mergeTimeline
        [⟨7, some 1, none, .historical, none⟩]
        [⟨7, some 2, none, .realtime, some 5⟩]
      = [⟨7, some 1, none, .historical, none⟩, ⟨7, some 2, none, .realtime, some 5⟩]
    ∧ (Brownclaw.mergeTimeline
        [⟨7, some 1, none, .historical, none⟩]
        [⟨7, some 2, none, .realtime, some 5⟩]).length = 2
    ∧ Brownclaw.mergeTimeline
        [⟨7, some 1, none, .historical, none⟩]
        [⟨7, some 2, none, .realtime, some 5⟩]
      ≠ [⟨7, some 2, none, .realtime, some 5⟩] := by
  refine ⟨by decide, by decide, by decide⟩

/-! Gap reconciler claims. -/

/-- Claim C1: with both sequences non-empty, the gap reconciler
computes `gapDays = firstRealtime - lastHistorical - 1`; when positive
it reports the gap from the day after the last historical date to the
day before the first real-time date with that day count, otherwise it
reports no gap; in particular historical ending 2024-12-31 and
real-time beginning 2025-09-16 yields a gap from 2025-01-01 to
2025-09-15 of 258 days. -/
theorem claim1_gap_algorithm (hist : List DailyRecord) (rt : List RTDaily)
    (lastH : DailyRecord) (firstR : RTDaily)
    (h1 : hist.getLast? = some lastH) (h2 : rt.head? = some firstR) :
    (0 < firstR.date - lastH.date - 1 →
      computeGap hist rt
        = .someGap (lastH.date + 1) (firstR.date - 1) (firstR.date - lastH.date - 1))
    ∧ (firstR.date - lastH.date - 1 ≤ 0 → computeGap hist rt = .noGap)
    ∧ (lastH.date = civil 2024 12 31 → firstR.date = civil 2025 9 16 →
        computeGap hist rt = .someGap (civil 2025 1 1) (civil 2025 9 15) 258) := by
  have hbase : computeGap hist rt
      = if 0 < firstR.date - lastH.date - 1 then
          GapInfo.someGap (lastH.date + 1) (firstR.date - 1) (firstR.date - lastH.date - 1)
        else GapInfo.noGap := by
    unfold computeGap
    rw [h1, h2]
  refine ⟨?_, ?_, ?_⟩
  · intro hpos
    rw [hbase, if_pos hpos]
  · intro hnonpos
    rw [hbase, if_neg (not_lt.2 hnonpos)]
  · intro ha hb
    rw [hbase, ha, hb, if_pos (by decide)]
    decide

/-- Witness for C1: the concrete 2024-12-31 to 2025-09-16 instance,
giving a 258-day gap from 2025-01-01 to 2025-09-15. -/
theorem claim1_witness :
    computeGap
        [⟨civil 2024 12 31, some (91/10), some (51/50), .historical, none⟩]
        [⟨civil 2025 9 16, some (42/5), none, 5⟩]
      = .someGap (civil 2025 1 1) (civil 2025 9 15) 258 :=
  (claim1_gap_algorithm
      [⟨civil 2024 12 31, some (91/10), some (51/50), .historical, none⟩]
      [⟨civil 2025 9 16, some (42/5), none, 5⟩]
      ⟨civil 2024 12 31, some (91/10), some (51/50), .historical, none⟩
      ⟨civil 2025 9 16, some (42/5), none, 5⟩
      rfl rfl).2.2 rfl rfl

/-- Claim C8 (amended): when either input sequence is empty the gap
dictionary is left as the untouched initial empty object, which carries
no `exists` entry at all, rather than being set to the explicit
`exists = false` object that the non-empty contiguous case produces. -/
theorem claim8_amended_thm (hist : List DailyRecord) (rt : List RTDaily)
    (h : hist = [] ∨ rt = []) : computeGap hist rt = .empty := by
  rcases h with rfl | rfl
  · unfold computeGap
    cases rt.head? <;> rfl
  · unfold computeGap
    cases hist.getLast? <;> rfl

/-- Witness for C8: a concrete empty historical sequence yields the
empty gap object. -/
theorem claim8_witness :
    computeGap [] [⟨civil 2025 9 16, some 1, none, 4⟩] = .empty :=
  claim8_amended_thm [] [⟨civil 2025 9 16, some 1, none, 4⟩] (Or.inl rfl)

/-- Counterexample for C8 as stated: with an empty historical sequence
the reconciler leaves the gap dictionary empty; it does not produce the
`exists = false` object the claim describes. -/
theorem claim8_counterexample :
    computeGap [] [⟨0, some 1, none, 1⟩] = .empty
    ∧ computeGap [⟨0, some 1, none, .historical, none⟩] [] = .empty
    ∧ GapInfo.empty ≠ GapInfo.noGap := by
  refine ⟨by decide, by decide, by decide⟩

/-! Helper lemmas about the real-time aggregation. -/

theorem avgOpt_eq_none (l : List ℚ) : avgOpt l = none ↔ l = [] := by
  unfold avgOpt
  split
  next h => simp [h]
  next h => simp [h]

theorem mkDailyRT_eq_none (d : Date) (ms : List Measurement) :
    mkDailyRT d ms = none ↔ (dischargeVals ms = [] ∧ levelVals ms = []) := by
  simp only [mkDailyRT]
  split
  next hc => simp only [avgOpt_eq_none] at hc; simp [hc]
  next hc => simp only [avgOpt_eq_none] at hc; simp [hc]

theorem measurementsOn_cons (f : RTFeature) (t : List RTFeature) (d : Date) :
    measurementsOn (f :: t) d
      = if f.datetime = some d then (f.discharge, f.level) :: measurementsOn t d
        else measurementsOn t d := by
  by_cases hc : f.datetime = some d
  · simp [measurementsOn, List.filterMap_cons, hc]
  · simp [measurementsOn, List.filterMap_cons, hc]

theorem measurementsOn_all_date {fs : List RTFeature} {d : Date}
    (h : ∀ f ∈ fs, f.datetime = some d) : measurementsOn fs d = msOf fs := by
  induction fs with
  | nil => rfl
  | cons f t ih =>
    have hf : f.datetime = some d := h f (List.mem_cons_self f t)
    have ht : ∀ g ∈ t, g.datetime = some d := fun g hg => h g (List.mem_cons_of_mem f hg)
    rw [measurementsOn_cons, if_pos hf, ih ht]
    rfl

theorem filterMap_datetime_all {fs : List RTFeature} {d : Date}
    (h : ∀ f ∈ fs, f.datetime = some d) :
    fs.filterMap RTFeature.datetime = List.replicate fs.length d := by
  induction fs with
  | nil => rfl
  | cons f t ih =>
    have hf : f.datetime = some d := h f (List.mem_cons_self f t)
    have ht : ∀ g ∈ t, g.datetime = some d := fun g hg => h g (List.mem_cons_of_mem f hg)
    rw [List.filterMap_cons, hf, List.length_cons, List.replicate_succ, ih ht]

theorem dedup_replicate (n : Nat) (d : Date) : (List.replicate (n + 1) d).dedup = [d] := by
  induction n with
  | zero => simp
  | succ k ih =>
    rw [List.replicate_succ, List.dedup_cons_of_mem (by simp [List.mem_replicate]), ih]

/-- When every feature of a non-empty list carries the same date, the
aggregation collapses to the single daily record of that date. -/
theorem aggregate_single_date (fs : List RTFeature) (d : Date)
    (hne : fs ≠ []) (hall : ∀ f ∈ fs, f.datetime = some d) :
    aggregate fs = (mkDailyRT d (msOf fs)).toList := by
  obtain ⟨f, t, rfl⟩ := List.exists_cons_of_ne_nil hne
  unfold aggregate
  rw [filterMap_datetime_all hall, List.length_cons, dedup_replicate]
  rw [show sortByKey id [d] = [d] from rfl]
  rw [show List.filterMap (fun d2 => mkDailyRT d2 (measurementsOn (f :: t) d2)) [d]
      = (mkDailyRT d (measurementsOn (f :: t) d)).toList from by
    cases h : mkDailyRT d (measurementsOn (f :: t) d) <;>
      simp [List.filterMap_cons, h]]
  rw [measurementsOn_all_date hall]

theorem vals_nil_of_all_none {fs : List RTFeature}
    (hall : ∀ f ∈ fs, f.discharge = none ∧ f.level = none) (d : Date) :
    dischargeVals (measurementsOn fs d) = [] ∧ levelVals (measurementsOn fs d) = [] := by
  induction fs with
  | nil => exact ⟨rfl, rfl⟩
  | cons f t ih =>
    obtain ⟨hd, hl⟩ := hall f (List.mem_cons_self f t)
    have ht : ∀ g ∈ t, g.discharge = none ∧ g.level = none :=
      fun g hg => hall g (List.mem_cons_of_mem f hg)
    rw [measurementsOn_cons]
    by_cases hc : f.datetime = some d
    · rw [if_pos hc]
      constructor
      · simpa [dischargeVals, List.filterMap_cons, hd] using (ih ht).1
      · simpa [levelVals, List.filterMap_cons, hl] using (ih ht).2
    · rw [if_neg hc]
      exact ih ht

/-! Real-time aggregator claims. -/

/-- Claim C2 (amended): for a non-empty collection of samples all on one
calendar date, at least one of which carries a measurement, the
aggregator emits exactly one record for that date; its discharge is the
2-decimal rounding of the mean of the non-null discharge values when
that mean is present and nonzero and null otherwise (the level likewise
at 3 decimals), and its sample count is the total number of raw samples
of the day, null-valued ones included.  The original claim, which
called the emitted discharge the arithmetic mean itself, fails because
a mean of exactly 0.0 is emitted as null. -/
theorem claim2_amended_thm (fs : List RTFeature) (d : Date)
    (hne : fs ≠ []) (hall : ∀ f ∈ fs, f.datetime = some d)
    (hmeas : ¬ (dischargeVals (msOf fs) = [] ∧ levelVals (msOf fs) = [])) :
    aggregate fs =
      [{ date := d
         discharge := (avgOpt (dischargeVals (msOf fs))).bind
             (fun a => if a = 0 then none else some (round2 a))
         level := (avgOpt (levelVals (msOf fs))).bind
             (fun a => if a = 0 then none else some (round3 a))
         sampleCount := fs.length }] := by
  rw [aggregate_single_date fs d hne hall]
  simp only [mkDailyRT]
  rw [if_neg (by simpa only [avgOpt_eq_none] using hmeas)]
  simp [msOf]

/-- Witness for C2: samples with discharges 5.0, 7.0 and null on one
date yield one record with discharge 6.0 and sample count 3. -/
theorem claim2_witness :
    aggregate [⟨some 10, some 5, none⟩, ⟨some 10, some 7, none⟩, ⟨some 10, none, none⟩]
      = [⟨10, some 6, none, 3⟩] := by
  rw [claim2_amended_thm
      [⟨some 10, some 5, none⟩, ⟨some 10, some 7, none⟩, ⟨some 10, none, none⟩] 10
      (by simp) (by simp) (by simp [msOf, dischargeVals, List.filterMap_cons])]
  rw [show dischargeVals (msOf [⟨some 10, some 5, none⟩, ⟨some 10, some 7, none⟩,
      ⟨some 10, none, none⟩]) = [5, 7] from rfl]
  rw [show levelVals (msOf [⟨some 10, some 5, none⟩, ⟨some 10, some 7, none⟩,
      ⟨some 10, none, none⟩]) = [] from rfl]
  rw [show avgOpt [(5 : ℚ), 7] = some 6 from by simp [avgOpt]; norm_num]
  rw [show avgOpt ([] : List ℚ) = none from rfl]
  norm_num [round2, rnd]

/-- Counterexample for C2 as stated: a day whose non-null discharges
are 0.0 and 0.0 (mean exactly 0.0) is emitted with a null discharge,
not with the arithmetic mean 0.0. -/
theorem claim2_counterexample :
    aggregate [⟨some 3, some 0, some (123/1000)⟩, ⟨some 3, some 0, some (125/1000)⟩,
        ⟨some 3, none, some (124/1000)⟩]
      = [⟨3, none, some (31/250), 3⟩]
    ∧ avgOpt (dischargeVals (msOf [⟨some 3, some 0, some (123/1000)⟩,
        ⟨some 3, some 0, some (125/1000)⟩, ⟨some 3, none, some (124/1000)⟩])) = some 0
    ∧ (none : Option ℚ) ≠ some (0 : ℚ) := by
  refine ⟨?_, ?_, by simp⟩
  · rw [aggregate_single_date _ 3 (by simp) (by simp)]
    simp only [mkDailyRT]
    rw [show dischargeVals (msOf [⟨some 3, some 0, some (123/1000)⟩,
        ⟨some 3, some 0, some (125/1000)⟩, ⟨some 3, none, some (124/1000)⟩]) = [0, 0] from rfl]
    rw [show levelVals (msOf [⟨some 3, some 0, some (123/1000)⟩,
        ⟨some 3, some 0, some (125/1000)⟩, ⟨some 3, none, some (124/1000)⟩])
        = [123/1000, 125/1000, 124/1000] from rfl]
    rw [show avgOpt [(0 : ℚ), 0] = some 0 from by simp [avgOpt]]
    rw [show avgOpt [(123/1000 : ℚ), 125/1000, 124/1000] = some (31/250) from by
      simp [avgOpt]; norm_num]
    rw [if_neg (by simp)]
    simp only [Option.some_bind]
    rw [if_neg (show ¬ (31/250 : ℚ) = 0 by norm_num)]
    rw [show round3 (31/250) = 31/250 from by norm_num [round3, rnd]]
    simp [msOf]
  · rw [show dischargeVals (msOf [⟨some 3, some 0, some (123/1000)⟩,
        ⟨some 3, some 0, some (125/1000)⟩, ⟨some 3, none, some (124/1000)⟩]) = [0, 0] from rfl]
    simp [avgOpt]

/-- Claim C5 (amended): a record vanishes exactly when the day has no
non-null measurement at all, so a day with zero discharge samples and
zero level samples produces no record; however an emitted record can
still carry two null fields, because an average of exactly 0.0 is
nulled out by the truthiness test.  The original unconditional
never-both-null claim fails on such a day. -/
theorem claim5_amended_thm (d : Date) (ms : List Measurement) (fs : List RTFeature) :
    (mkDailyRT d ms = none ↔ (dischargeVals ms = [] ∧ levelVals ms = []))
    ∧ ((∀ f ∈ fs, f.discharge = none ∧ f.level = none) → aggregate fs = []) := by
  refine ⟨mkDailyRT_eq_none d ms, ?_⟩
  intro hall
  unfold aggregate
  rw [List.filterMap_eq_nil_iff]
  intro d2 _
  rw [mkDailyRT_eq_none]
  exact vals_nil_of_all_none hall d2

/-- Witness for C5: a day whose one sample has no discharge and no
level produces no daily record at all. -/
theorem claim5_witness :
    aggregate [⟨some 0, none, none⟩] = [] :=
  (claim5_amended_thm 0 [] [⟨some 0, none, none⟩]).2 (by simp)

/-- Counterexample for C5 as stated: one sample with discharge 0.0 and
no level yields an emitted record whose discharge and level are both
null. -/
theorem claim5_counterexample :
    aggregate [⟨some 1, some 0, none⟩] = [⟨1, none, none, 1⟩]
    ∧ (⟨1, none, none, 1⟩ : RTDaily).discharge = none
    ∧ (⟨1, none, none, 1⟩ : RTDaily).level = none := by
  refine ⟨?_, rfl, rfl⟩
  rw [aggregate_single_date _ 1 (by simp) (by simp)]
  simp only [mkDailyRT]
  rw [show dischargeVals (msOf [⟨some 1, some 0, none⟩]) = [0] from rfl]
  rw [show levelVals (msOf [⟨some 1, some 0, none⟩]) = [] from rfl]
  rw [show avgOpt [(0 : ℚ)] = some 0 from by simp [avgOpt]]
  rw [show avgOpt ([] : List ℚ) = none from rfl]
  rw [if_neg (by simp)]
  simp [msOf]

/-- Claim C10: a day whose non-null discharge values average to exactly
0.0 still emits a record, but with a null discharge, because the
rounded value is substituted only when the computed average is truthy;
the level behaves the same way. -/
theorem claim10_null_on_zero_average (d : Date) (ms : List Measurement) :
    (avgOpt (dischargeVals ms) = some 0 →
      mkDailyRT d ms ≠ none ∧ (mkDailyRT d ms).bind RTDaily.discharge = none)
    ∧ (avgOpt (levelVals ms) = some 0 →
      mkDailyRT d ms ≠ none ∧ (mkDailyRT d ms).bind RTDaily.level = none) := by
  constructor
  · intro h
    have hcond : ¬ (avgOpt (dischargeVals ms) = none ∧ avgOpt (levelVals ms) = none) := by
      simp [h]
    constructor
    · simp only [mkDailyRT]
      rw [if_neg hcond]
      simp
    · simp only [mkDailyRT]
      rw [if_neg hcond]
      simp [h]
  · intro h
    have hcond : ¬ (avgOpt (dischargeVals ms) = none ∧ avgOpt (levelVals ms) = none) := by
      simp [h]
    constructor
    · simp only [mkDailyRT]
      rw [if_neg hcond]
      simp
    · simp only [mkDailyRT]
      rw [if_neg hcond]
      simp [h]

/-- Witness for C10: a single sample with discharge 0.0 emits a record
whose discharge is null. -/
theorem claim10_witness :
    mkDailyRT 4 [(some 0, none)] ≠ none
    ∧ (mkDailyRT 4 [(some 0, none)]).bind RTDaily.discharge = none :=
  (claim10_null_on_zero_average 4 [(some 0, none)]).1
    (by simp [avgOpt, dischargeVals, List.filterMap_cons])

/-! Malformed-unit handling and partial-failure claims. -/

/-- Claim C7 (amended): in the real-time path a sample whose `DATETIME`
field is missing is silently dropped and processing of the remaining
samples continues; in the historical path, however, no unit is ever
dropped: every feature is turned into a record, a missing date simply
becoming a null date field, with no per-unit numeric validation.  The
original claim, which said every malformed unit is dropped, fails on
the historical path. -/
theorem claim7_amended_thm :
    (∀ (dsc lvl : Option ℚ) (fs : List RTFeature),
        aggregate ({ datetime := none, discharge := dsc, level := lvl } :: fs)
          = aggregate fs)
    ∧ (∀ fs : List HistFeature, (parseHistorical fs).length = fs.length) := by
  constructor
  · intro dsc lvl fs
    have hdt : List.filterMap RTFeature.datetime
        (({ datetime := none, discharge := dsc, level := lvl } : RTFeature) :: fs)
        = fs.filterMap RTFeature.datetime := by
      rw [List.filterMap_cons]
    have hfun : (fun d => mkDailyRT d (measurementsOn
          (({ datetime := none, discharge := dsc, level := lvl } : RTFeature) :: fs) d))
        = fun d => mkDailyRT d (measurementsOn fs d) := by
      funext d
      rw [measurementsOn_cons, if_neg (by simp)]
    unfold aggregate
    rw [hdt, hfun]
  · intro fs
    simp [parseHistorical]

/-- Counterexample for C7 as stated: a historical feature with a
missing date is not dropped; it is parsed into a record with a null
date. -/
theorem claim7_counterexample :
    parseHistorical [⟨none, some 1, some 1⟩]
      = [⟨none, some 1, some 1, .historical⟩]
    ∧ (parseHistorical [⟨none, some 1, some 1⟩]).length = 1 :=
  ⟨rfl, rfl⟩

/-- Claim C4 (amended): a failed fetch never fails the combined
operation.  When the historical fetch fails and the real-time fetch
succeeds, the result still comes back with an empty historical list,
the aggregated real-time records, and a combined series made of
real-time-sourced entries only; symmetrically for the other side; even
when both fetches fail a normal, empty result is returned.  The
availability summary, however, is the fixed `staticAvailability` value
in every case: the original claim that a failed source is marked
unavailable fails, as does its assertion that the operation fails when
both fetches fail. -/
theorem claim4_amended_thm (hist : List DailyRecord) (rtFs : List RTFeature)
    (e e2 : FetchError) :
    (simulateGetCombinedTimeline (Except.error e) (Except.ok rtFs)).historical = []
    ∧ (simulateGetCombinedTimeline (Except.error e) (Except.ok rtFs)).realtime
        = aggregate rtFs
    ∧ ((simulateGetCombinedTimeline (Except.error e) (Except.ok rtFs)).combined).all
        sourceIsRealtime = true
    ∧ (simulateGetCombinedTimeline (Except.error e) (Except.ok rtFs)).availability
        = staticAvailability
    ∧ (simulateGetCombinedTimeline (Except.ok hist) (Except.error e)).realtime = []
    ∧ (simulateGetCombinedTimeline (Except.ok hist) (Except.error e)).historical = hist
    ∧ (simulateGetCombinedTimeline (Except.ok hist) (Except.error e)).availability
        = staticAvailability
    ∧ simulateGetCombinedTimeline (Except.error e) (Except.error e2)
        = ⟨[], [], .empty, [], staticAvailability⟩ := by
  refine ⟨rfl, rfl, ?_, rfl, rfl, rfl, rfl, rfl⟩
  rw [List.all_eq_true]
  intro r hr
  have hr2 : r ∈ ([] : List DailyRecord) ++ (aggregate rtFs).map rtToDaily :=
    (sortByKey_perm DailyRecord.date _).mem_iff.1 hr
  rw [List.nil_append, List.mem_map] at hr2
  obtain ⟨y, _, rfl⟩ := hr2
  rfl

/-- Counterexample for C4 as stated: with the historical fetch failed
the availability summary still marks the historical source available,
and with both fetches failed the operation still returns a normal
(empty) result instead of failing. -/
theorem claim4_counterexample :
    (simulateGetCombinedTimeline (Except.error ⟨7⟩)
        (Except.ok [⟨some 11, some 2, none⟩])).availability.historicalData.available = true
    ∧ simulateGetCombinedTimeline (Except.error ⟨7⟩) (Except.error ⟨8⟩)
        = ⟨[], [], .empty, [], staticAvailability⟩ :=
  ⟨rfl, rfl⟩

end Brownclaw
